import Mathlib

/-!
Verification of the pi-nas OLED status daemon core: the TTL cache
(`sources/base.py`), the alarm cooldown engine and RAID alarm checks
(`oled-status/alarms.py`), the home-page view cascade
(`oled-status/pages/home.py`), value formatters
(`oled-status/formatters.py`), the navigation state machine
(`oled-status/main.py`), the mdadm status fetch
(`oled-status/sources/mdadm.py`) and the buzzer pattern dispatch
(`buzzer.py`).  Time is modelled as `ℚ` (wall-clock seconds), Python
dicts keyed by strings as functions `String → Option _`, and Python
exceptions as an explicit `Except` error channel.
-/

namespace PiNas

/-! ### TTL cache (`sources/base.py`, class `CachedDataSource`) -/

/-- The two dictionaries of `CachedDataSource.__init__`: `_cache` and
`_timestamps`, each keyed by the data key string. -/
structure CacheState (α : Type) where
  cache : String → Option α
  timestamps : String → Option ℚ

/-- Fresh source state: both dicts empty. -/
def CacheState.init (α : Type) : CacheState α :=
  ⟨fun _ => none, fun _ => none⟩

/-- State after the fetch path of `get`: both dicts updated at `key` with the
fetched value and `now`. -/
def cacheAfterFetch (fetch : String → α) (st : CacheState α) (now : ℚ)
    (key : String) : CacheState α :=
  ⟨fun k => if k = key then some (fetch key) else st.cache k,
   fun k => if k = key then some now else st.timestamps k⟩

/-- `CachedDataSource.get(key, ttl_s)`.  Returns the value, the new state and
the number of `_fetch` invocations (0 or 1).  The result is `none` exactly
when Python would raise `KeyError`: `key` present in `_cache` but missing
from `_timestamps`. -/
def cacheGet (fetch : String → α) (st : CacheState α) (now : ℚ)
    (key : String) (ttl : ℚ) : Option (α × CacheState α × Nat) :=
  match st.cache key with
  | some v =>
      match st.timestamps key with
      | some t =>
          if now - t < ttl then some (v, st, 0)
          else some (fetch key, cacheAfterFetch fetch st now key, 1)
      | none => none
  | none => some (fetch key, cacheAfterFetch fetch st now key, 1)

/-- `CachedDataSource.invalidate(key)` with a specific key: pop from both
dicts. -/
def invalidateKey (st : CacheState α) (key : String) : CacheState α :=
  ⟨fun k => if k = key then none else st.cache k,
   fun k => if k = key then none else st.timestamps k⟩

/-- `CachedDataSource.invalidate()` with no key: clear both dicts. -/
def invalidateAll (_st : CacheState α) : CacheState α :=
  ⟨fun _ => none, fun _ => none⟩

/-- One operation on a cached data source. -/
inductive CacheOp
  | get (key : String) (ttl : ℚ) (now : ℚ)
  | invKey (key : String)
  | invAll

/-- Apply one operation to the state (the `none`/`KeyError` case of `get`
leaves the state unchanged; the invariant below shows it never occurs). -/
def cacheStep (fetch : String → α) (st : CacheState α) : CacheOp → CacheState α
  | .get key ttl now =>
      match cacheGet fetch st now key ttl with
      | some (_, st', _) => st'
      | none => st
  | .invKey key => invalidateKey st key
  | .invAll => invalidateAll st

/-- Run a sequence of operations. -/
def cacheRun (fetch : String → α) (st : CacheState α) (ops : List CacheOp) :
    CacheState α :=
  ops.foldl (cacheStep fetch) st

/-- The implicit consistency invariant: `_cache` and `_timestamps` hold
exactly the same key set. -/
def cacheInv (st : CacheState α) : Prop :=
  ∀ k, (st.cache k).isSome ↔ (st.timestamps k).isSome

theorem cacheInv_init (α : Type) : cacheInv (CacheState.init α) := by
  intro k; simp [CacheState.init]

theorem cacheInv_afterFetch (fetch : String → α) (st : CacheState α)
    (now : ℚ) (key : String) (h : cacheInv st) :
    cacheInv (cacheAfterFetch fetch st now key) := by
  intro k
  by_cases hk : k = key <;> simp [cacheAfterFetch, hk, h k]

theorem cacheInv_step (fetch : String → α) (st : CacheState α) (op : CacheOp)
    (h : cacheInv st) : cacheInv (cacheStep fetch st op) := by
  cases op with
  | get key ttl now =>
      cases hc : st.cache key with
      | none =>
          simpa [cacheStep, cacheGet, hc] using cacheInv_afterFetch fetch st now key h
      | some v =>
          cases ht : st.timestamps key with
          | none => simpa [cacheStep, cacheGet, hc, ht] using h
          | some t =>
              by_cases hf : now - t < ttl
              · simpa [cacheStep, cacheGet, hc, ht, hf] using h
              · simpa [cacheStep, cacheGet, hc, ht, hf] using
                  cacheInv_afterFetch fetch st now key h
  | invKey key =>
      intro k
      by_cases hk : k = key <;> simp [cacheStep, invalidateKey, hk, h k]
  | invAll =>
      intro k; simp [cacheStep, invalidateAll]

theorem cacheInv_run (fetch : String → α) (st : CacheState α)
    (ops : List CacheOp) (h : cacheInv st) :
    cacheInv (cacheRun fetch st ops) := by
  induction ops generalizing st with
  | nil => simpa [cacheRun] using h
  | cons op ops ih =>
      simpa [cacheRun] using ih (cacheStep fetch st op) (cacheInv_step fetch st op h)

/-- C1: TTL cache `get` semantics.  (1) On a hit younger than `ttl` the
stored value is returned, the state is unchanged and `_fetch` is not
invoked.  (2) On a stale entry `_fetch` runs exactly once, the entry's
value and timestamp are overwritten with the fetch result and `now`, and
that result is returned.  (3) The same on a complete miss.  (4) After a
fetch, a second `get` within `ttl` serves the stored result with no fetch
— so a fetch failure stored as the absent value (`α` instantiated at
`Option _`, fetched value `none`) is cached and served under the same TTL
rule.  (5) After a fetch, a `get` at or past `ttl` fetches again. -/
theorem c1_cache_get_semantics (α : Type) (fetch : String → α)
    (st : CacheState α) (now : ℚ) (key : String) (ttl : ℚ) :
    (∀ v t, st.cache key = some v → st.timestamps key = some t →
        now - t < ttl → cacheGet fetch st now key ttl = some (v, st, 0)) ∧
    (∀ v t, st.cache key = some v → st.timestamps key = some t →
        ttl ≤ now - t →
        cacheGet fetch st now key ttl =
          some (fetch key, cacheAfterFetch fetch st now key, 1)) ∧
    (st.cache key = none →
        cacheGet fetch st now key ttl =
          some (fetch key, cacheAfterFetch fetch st now key, 1)) ∧
    (∀ now₂, now₂ - now < ttl →
        cacheGet fetch (cacheAfterFetch fetch st now key) now₂ key ttl =
          some (fetch key, cacheAfterFetch fetch st now key, 0)) ∧
    (∀ now₂, ttl ≤ now₂ - now →
        cacheGet fetch (cacheAfterFetch fetch st now key) now₂ key ttl =
          some (fetch key,
            cacheAfterFetch fetch (cacheAfterFetch fetch st now key) now₂ key, 1)) := by
  refine ⟨?_, ?_, ?_, ?_, ?_⟩
  · intro v t hv ht hfresh
    simp [cacheGet, hv, ht, hfresh]
  · intro v t hv ht hstale
    simp [cacheGet, hv, ht, not_lt.mpr hstale]
  · intro hnone
    simp [cacheGet, hnone]
  · intro now₂ hfresh
    simp [cacheGet, cacheAfterFetch, hfresh]
  · intro now₂ hstale
    simp [cacheGet, cacheAfterFetch, not_lt.mpr hstale]

/-- Witness for C1 at concrete inputs, with the fetched value the absent
value `none` (a cached failure): a miss stores and returns `none` with one
fetch, an immediate retry serves `none` from cache with no fetch, and a
retry past the TTL fetches again. -/
theorem c1_witness :
    (cacheGet (fun _ => (none : Option Nat)) (CacheState.init (Option Nat))
        100 "smart" 10 =
      some (none,
        cacheAfterFetch (fun _ => none) (CacheState.init (Option Nat)) 100 "smart", 1)) ∧
    (cacheGet (fun _ => (none : Option Nat))
        (cacheAfterFetch (fun _ => none) (CacheState.init (Option Nat)) 100 "smart")
        105 "smart" 10 =
      some (none,
        cacheAfterFetch (fun _ => none) (CacheState.init (Option Nat)) 100 "smart", 0)) ∧
    (cacheGet (fun _ => (none : Option Nat))
        (cacheAfterFetch (fun _ => none) (CacheState.init (Option Nat)) 100 "smart")
        111 "smart" 10 =
      some (none,
        cacheAfterFetch (fun _ => none)
          (cacheAfterFetch (fun _ => none) (CacheState.init (Option Nat)) 100 "smart")
          111 "smart", 1)) := by
  refine ⟨?_, ?_, ?_⟩
  · exact (c1_cache_get_semantics (Option Nat) (fun _ => none)
      (CacheState.init (Option Nat)) 100 "smart" 10).2.2.1 rfl
  · exact (c1_cache_get_semantics (Option Nat) (fun _ => none)
      (CacheState.init (Option Nat)) 100 "smart" 10).2.2.2.1 105 (by norm_num)
  · exact (c1_cache_get_semantics (Option Nat) (fun _ => none)
      (CacheState.init (Option Nat)) 100 "smart" 10).2.2.2.2 111 (by norm_num)

/-- C9: after every sequence of `get`/`invalidate` operations from a fresh
source, `_cache` and `_timestamps` hold exactly the same key set, and on
any state satisfying that invariant the timestamp lookup on the cache-hit
path of `get` cannot fail (no `KeyError`). -/
theorem c9_cache_key_consistency (α : Type) (fetch : String → α)
    (ops : List CacheOp) :
    cacheInv (cacheRun fetch (CacheState.init α) ops) ∧
    (∀ st : CacheState α, cacheInv st → ∀ now key ttl,
        (cacheGet fetch st now key ttl).isSome) := by
  constructor
  · exact cacheInv_run fetch (CacheState.init α) ops (cacheInv_init α)
  · intro st hinv now key ttl
    unfold cacheGet
    cases hc : st.cache key with
    | none => simp
    | some v =>
        have : (st.timestamps key).isSome := (hinv key).mp (by simp [hc])
        cases ht : st.timestamps key with
        | none => simp [ht] at this
        | some t => by_cases hf : now - t < ttl <;> simp [hf]

/-- Witness for C9 at a concrete operation sequence and concrete state. -/
theorem c9_witness :
    cacheInv (cacheRun (fun _ => (0 : Nat)) (CacheState.init Nat)
      [CacheOp.get "cpu" 2 1, CacheOp.invKey "cpu", CacheOp.invAll]) ∧
    (cacheGet (fun _ => (0 : Nat)) (CacheState.init Nat) 5 "cpu" 2).isSome := by
  constructor
  · exact (c9_cache_key_consistency Nat (fun _ => 0)
      [CacheOp.get "cpu" 2 1, CacheOp.invKey "cpu", CacheOp.invAll]).1
  · exact (c9_cache_key_consistency Nat (fun _ => 0) []).2
      (CacheState.init Nat) (cacheInv_init Nat) 5 "cpu" 2

/-! ### Alarm cooldown engine (`oled-status/alarms.py`, class `AlarmState`) -/

/-- `AlarmState.__init__`: a cooldown and the `last_alert` dict mapping alarm
ids to timestamps. -/
structure AlarmState where
  cooldown : ℚ
  lastAlert : String → Option ℚ

/-- `AlarmState.should_alert(alarm_id)` at wall-clock time `now`: `last =
last_alert.get(alarm_id, 0)`; if `now - last >= cooldown`, stamp now and
return true, else return false and leave the dict untouched. -/
def shouldAlert (s : AlarmState) (aid : String) (now : ℚ) : Bool × AlarmState :=
  let last := (s.lastAlert aid).getD 0
  if s.cooldown ≤ now - last then
    (true, ⟨s.cooldown, fun k => if k = aid then some now else s.lastAlert k⟩)
  else
    (false, s)

/-- `AlarmState.clear(alarm_id)`: pop the stamp. -/
def alarmClear (s : AlarmState) (aid : String) : AlarmState :=
  ⟨s.cooldown, fun k => if k = aid then none else s.lastAlert k⟩

/-- One call into the alarm state: a `should_alert` at a given time, or a
`clear`. -/
inductive AlarmOp
  | sa (aid : String) (now : ℚ)
  | cl (aid : String)
deriving DecidableEq

/-- State after one alarm-state call. -/
def alarmStep (s : AlarmState) : AlarmOp → AlarmState
  | .sa aid now => (shouldAlert s aid now).2
  | .cl aid => alarmClear s aid

/-- Run a sequence of alarm-state calls. -/
def alarmRun (s : AlarmState) (ops : List AlarmOp) : AlarmState :=
  ops.foldl alarmStep s

/-- `ops` contains no `clear` of the given alarm id. -/
def noClearOf (aid : String) (ops : List AlarmOp) : Prop :=
  ∀ op ∈ ops, op ≠ AlarmOp.cl aid

theorem lastAlert_mono (s : AlarmState) (aid : String) (t1 : ℚ)
    (hc : 0 ≤ s.cooldown) (ops : List AlarmOp) (hnc : noClearOf aid ops)
    (u : ℚ) (hu : s.lastAlert aid = some u) (hut : t1 ≤ u) :
    (alarmRun s ops).cooldown = s.cooldown ∧
    ∃ u', (alarmRun s ops).lastAlert aid = some u' ∧ t1 ≤ u' := by
  induction ops generalizing s u with
  | nil => exact ⟨rfl, u, hu, hut⟩
  | cons op ops ih =>
      have hnc' : noClearOf aid ops := fun o ho => hnc o (List.mem_cons_of_mem op ho)
      cases op with
      | sa aid' now =>
          by_cases haid : aid' = aid
          · subst haid
            unfold alarmRun
            rw [List.foldl_cons]
            by_cases htrig : s.cooldown ≤ now - (s.lastAlert aid').getD 0
            · have hstep : alarmStep s (AlarmOp.sa aid' now) =
                  ⟨s.cooldown, fun k => if k = aid' then some now else s.lastAlert k⟩ := by
                simp [alarmStep, shouldAlert, htrig]
              rw [hstep]
              refine ih _ hc hnc' now (by simp) ?_
              have : s.cooldown ≤ now - u := by rw [hu] at htrig; simpa using htrig
              linarith
            · have hstep : alarmStep s (AlarmOp.sa aid' now) = s := by
                simp [alarmStep, shouldAlert, htrig]
              rw [hstep]
              exact ih s hc hnc' u hu hut
          · unfold alarmRun
            rw [List.foldl_cons]
            by_cases htrig : s.cooldown ≤ now - (s.lastAlert aid').getD 0
            · have hstep : alarmStep s (AlarmOp.sa aid' now) =
                  ⟨s.cooldown, fun k => if k = aid' then some now else s.lastAlert k⟩ := by
                simp [alarmStep, shouldAlert, htrig]
              rw [hstep]
              refine ih _ hc hnc' u ?_ hut
              simp only []
              rw [if_neg (fun h => haid h.symm)]
              exact hu
            · have hstep : alarmStep s (AlarmOp.sa aid' now) = s := by
                simp [alarmStep, shouldAlert, htrig]
              rw [hstep]
              exact ih s hc hnc' u hu hut
      | cl aid' =>
          have haid : aid' ≠ aid := by
            intro h
            exact hnc (AlarmOp.cl aid') (List.mem_cons_self _ _) (by rw [h])
          unfold alarmRun
          rw [List.foldl_cons]
          have hstep : alarmStep s (AlarmOp.cl aid') = alarmClear s aid' := rfl
          rw [hstep]
          refine ih (alarmClear s aid') hc hnc' u ?_ hut
          simp only [alarmClear]
          rw [if_neg (fun h => haid h.symm)]
          exact hu

/-- C2: alarm cooldown.
(1) Cooldown gap: if `should_alert(aid)` returned true at `t1` (stamping
`t1`, per (2)), then after any further calls containing no `clear(aid)`,
a `should_alert(aid)` at `t2` returning true implies `t2 - t1 ≥ cooldown`.
(2) A true call stamps its own time.
(3) A false call leaves the state unchanged.
(4) After `clear(aid)`, the next `should_alert(aid)` returns true
immediately (wall-clock `now` is at least the cooldown, as epoch seconds
always are).
(5) While a condition persists, true recurs as soon as the cooldown has
elapsed since the last stamp.
(6) Distinct ids share no cooldown state: calls on `aid` leave other ids'
stamps unchanged, and the result of `should_alert(aid)` depends only on
`aid`'s own stamp. -/
theorem c2_alarm_cooldown (s : AlarmState) (aid aid' : String)
    (t1 t2 now : ℚ) (ops : List AlarmOp) (hc : 0 ≤ s.cooldown) :
    (s.lastAlert aid = some t1 → noClearOf aid ops →
      (shouldAlert (alarmRun s ops) aid t2).1 = true → s.cooldown ≤ t2 - t1) ∧
    ((shouldAlert s aid now).1 = true →
      (shouldAlert s aid now).2.lastAlert aid = some now) ∧
    ((shouldAlert s aid now).1 = false → (shouldAlert s aid now).2 = s) ∧
    (s.cooldown ≤ now → (shouldAlert (alarmClear s aid) aid now).1 = true) ∧
    (s.lastAlert aid = some t1 → s.cooldown ≤ t2 - t1 →
      (shouldAlert s aid t2).1 = true) ∧
    (aid' ≠ aid →
      (shouldAlert s aid now).2.lastAlert aid' = s.lastAlert aid' ∧
      (alarmClear s aid).lastAlert aid' = s.lastAlert aid') ∧
    (∀ s' : AlarmState, s'.cooldown = s.cooldown →
      s'.lastAlert aid = s.lastAlert aid →
      (shouldAlert s' aid now).1 = (shouldAlert s aid now).1) := by
  refine ⟨?_, ?_, ?_, ?_, ?_, ?_, ?_⟩
  · intro h1 hnc htrue
    obtain ⟨hcd, u', hu', hut⟩ :=
      lastAlert_mono s aid t1 hc ops hnc t1 h1 (le_refl t1)
    have : (alarmRun s ops).cooldown ≤ t2 - u' := by
      by_contra hlt
      simp [shouldAlert, hu', hlt] at htrue
    rw [hcd] at this
    linarith
  · intro htrue
    by_cases htrig : s.cooldown ≤ now - (s.lastAlert aid).getD 0
    · simp [shouldAlert, htrig]
    · simp [shouldAlert, htrig] at htrue
  · intro hfalse
    by_cases htrig : s.cooldown ≤ now - (s.lastAlert aid).getD 0
    · simp [shouldAlert, htrig] at hfalse
    · simp [shouldAlert, htrig]
  · intro hnow
    simp [shouldAlert, alarmClear, hnow]
  · intro h1 hgap
    simp [shouldAlert, h1, hgap]
  · intro hne
    constructor
    · by_cases htrig : s.cooldown ≤ now - (s.lastAlert aid).getD 0
      · simp only [shouldAlert, if_pos htrig]
        rw [if_neg hne]
      · simp [shouldAlert, htrig]
    · simp only [alarmClear]
      rw [if_neg hne]
  · intro s' hcd hla
    simp only [shouldAlert, hcd, hla]
    by_cases htrig : s.cooldown ≤ now - (s.lastAlert aid).getD 0 <;>
      simp [htrig]

/-- Concrete alarm state for the C2 witness: five-minute cooldown, one
stamp. -/
def demoA : AlarmState :=
  ⟨300, fun k => if k = "raid_degraded" then some 1000 else none⟩

/-- A second state agreeing with `demoA` on `raid_degraded` only. -/
def demoB : AlarmState :=
  ⟨300, fun k => if k = "raid_degraded" then some 1000 else some 777⟩

/-- Calls between the two true alerts of the C2 witness: a suppressed
`should_alert` and a `clear` of an unrelated id. -/
def demoOps : List AlarmOp :=
  [AlarmOp.sa "raid_degraded" 1100, AlarmOp.cl "temp_sda"]

/-- Witness for C2 at concrete inputs. -/
theorem c2_witness :
    ((demoA.cooldown ≤ 1300 - 1000) ∧
     (shouldAlert demoA "raid_degraded" 2000).2.lastAlert "raid_degraded" = some 2000 ∧
     (shouldAlert demoA "raid_degraded" 1100).2 = demoA ∧
     (shouldAlert (alarmClear demoA "raid_degraded") "raid_degraded" 2000).1 = true ∧
     (shouldAlert demoA "raid_degraded" 1300).1 = true ∧
     ((shouldAlert demoA "raid_degraded" 2000).2.lastAlert "temp_sda" =
        demoA.lastAlert "temp_sda" ∧
      (alarmClear demoA "raid_degraded").lastAlert "temp_sda" =
        demoA.lastAlert "temp_sda") ∧
     (shouldAlert demoB "raid_degraded" 2000).1 =
       (shouldAlert demoA "raid_degraded" 2000).1) := by
  have h13 := c2_alarm_cooldown demoA "raid_degraded" "temp_sda" 1000 1300 1300
    demoOps (by norm_num [demoA])
  have h20 := c2_alarm_cooldown demoA "raid_degraded" "temp_sda" 1000 1300 2000
    demoOps (by norm_num [demoA])
  have h11 := c2_alarm_cooldown demoA "raid_degraded" "temp_sda" 1000 1300 1100
    demoOps (by norm_num [demoA])
  refine ⟨?_, ?_, ?_, ?_, ?_, ?_, ?_⟩
  · refine h13.1 (by simp [demoA]) ?_ ?_
    · intro op hop
      simp only [demoOps, List.mem_cons, List.mem_singleton] at hop
      rcases hop with h | h | h
      · subst h; simp
      · subst h; simp
      · simp at h
    · norm_num [shouldAlert, alarmRun, alarmStep, alarmClear, demoA, demoOps,
        show ("raid_degraded" : String) ≠ "temp_sda" by decide]
  · exact h20.2.1 (by norm_num [shouldAlert, demoA])
  · exact h11.2.2.1 (by norm_num [shouldAlert, demoA])
  · exact h20.2.2.2.1 (by norm_num [demoA])
  · exact h13.2.2.2.2.1 (by simp [demoA]) (by norm_num [demoA])
  · exact h20.2.2.2.2.2.1 (by simp)
  · exact h20.2.2.2.2.2.2 demoB rfl (by simp [demoA, demoB])

/-! ### Home-page view cascade (`oled-status/pages/home.py`, `render`) -/

/-- `needle` literally begins `hay`. -/
def leadMatch : List Char → List Char → Bool
  | [], _ => true
  | _ :: _, [] => false
  | a :: as, b :: bs => a == b && leadMatch as bs

/-- `needle` occurs somewhere in `hay` (Python `needle in hay`). -/
def hasSub (needle : List Char) : List Char → Bool
  | [] => leadMatch needle []
  | b :: bs => leadMatch needle (b :: bs) || hasSub needle bs

/-- Python `"degraded" in array_state.lower()`. -/
def containsDegraded (array_state : String) : Bool :=
  hasSub "degraded".data (array_state.data.map Char.toLower)

/-- The membership test `sync_action in ("resync", "recovery", "recover",
"check", "repair")`. -/
def isRenderedSync (sync_action : String) : Bool :=
  sync_action == "resync" || sync_action == "recovery" ||
    sync_action == "recover" || sync_action == "check" ||
    sync_action == "repair"

/-- The three mutually exclusive home-page views. -/
inductive HomeView
  | sync
  | degraded
  | clean
deriving DecidableEq

/-- The view-selection logic of `render` in `pages/home.py`: the resync page
when the sync action is truthy, not `idle`/`frozen` and one of the five
rendered actions; else the degraded page if `array_state` contains
`degraded` (case-insensitive); else the clean page. -/
def selectHomeView (sync_action array_state : String) : HomeView :=
  if (!(sync_action == "")) && (!(sync_action == "idle" || sync_action == "frozen")) &&
      isRenderedSync sync_action then
    .sync
  else if containsDegraded array_state then
    .degraded
  else
    .clean

/-- C3: home-page priority cascade.  (1) Whenever the sync action is
present, not `idle`/`frozen`, and one of the five rendered actions, the
sync view is selected — for every `array_state`, degraded or not.
(2) The degraded view is selected exactly when no such sync is active and
`array_state` contains `degraded` (case-insensitive substring).
(3) Otherwise the clean view is selected.  (4) In particular
`sync_action="resync"` with `array_state="clean, degraded"` selects the
sync (resync) view, not the degraded view. -/
theorem c3_home_priority_cascade (sync_action array_state : String) :
    (((!(sync_action == "")) &&
        (!(sync_action == "idle" || sync_action == "frozen")) &&
        isRenderedSync sync_action) = true →
      selectHomeView sync_action array_state = .sync) ∧
    (((!(sync_action == "")) &&
        (!(sync_action == "idle" || sync_action == "frozen")) &&
        isRenderedSync sync_action) = false →
      containsDegraded array_state = true →
      selectHomeView sync_action array_state = .degraded) ∧
    (((!(sync_action == "")) &&
        (!(sync_action == "idle" || sync_action == "frozen")) &&
        isRenderedSync sync_action) = false →
      containsDegraded array_state = false →
      selectHomeView sync_action array_state = .clean) ∧
    selectHomeView "resync" "clean, degraded" = .sync := by
  refine ⟨?_, ?_, ?_, ?_⟩
  · intro h
    simp only [selectHomeView, h, if_true]
  · intro h hdeg
    simp only [selectHomeView, h, hdeg]
    rfl
  · intro h hdeg
    simp only [selectHomeView, h, hdeg]
    rfl
  · rfl

/-- Witness for C3 at concrete inputs: an active resync on a degraded
array selects the sync view; the same degraded array with `sync_action`
`idle` selects the degraded view; a clean idle array selects the clean
view. -/
theorem c3_witness :
    selectHomeView "resync" "clean, degraded" = HomeView.sync ∧
    selectHomeView "idle" "clean, degraded" = HomeView.degraded ∧
    selectHomeView "idle" "clean" = HomeView.clean := by
  refine ⟨?_, ?_, ?_⟩
  · exact (c3_home_priority_cascade "resync" "clean, degraded").1 (by decide)
  · exact (c3_home_priority_cascade "idle" "clean, degraded").2.1 (by decide) (by decide)
  · exact (c3_home_priority_cascade "idle" "clean").2.2.1 (by decide) (by decide)

/-! ### Buzzer pattern dispatch (`buzzer.py`, `Buzzer.pattern`) -/

/-- The `patterns` dict of `Buzzer.pattern`: name to list of
`(beep_ms, pause_ms)` pairs. -/
def buzzerLookup (p : String) : Option (List (Nat × Nat)) :=
  if p == "short" then some [(100, 100)]
  else if p == "long" then some [(500, 100)]
  else if p == "double" then some [(100, 100), (100, 100)]
  else if p == "triple" then some [(100, 100), (100, 100), (100, 100)]
  else none

/-- `Buzzer.pattern(pattern)`: the sequence of `(beep_ms, pause_ms)` events
played; an unknown name is replaced by `"short"` before dispatch. -/
def patternEvents (p : String) : List (Nat × Nat) :=
  match buzzerLookup p with
  | some l => l
  | none => [(100, 100)]

/-- C10: `Buzzer.pattern` is total — every name maps to one of the four
defined event lists, and any name outside
`{short, long, double, triple}` plays the `short` pattern: a single 100 ms
beep followed by a 100 ms pause. -/
theorem c10_buzzer_pattern_fallback (p : String) :
    (patternEvents p = [(100, 100)] ∨ patternEvents p = [(500, 100)] ∨
     patternEvents p = [(100, 100), (100, 100)] ∨
     patternEvents p = [(100, 100), (100, 100), (100, 100)]) ∧
    (p ≠ "short" → p ≠ "long" → p ≠ "double" → p ≠ "triple" →
      patternEvents p = [(100, 100)]) := by
  constructor
  · by_cases h1 : p = "short"
    · left; simp [patternEvents, buzzerLookup, h1]
    · by_cases h2 : p = "long"
      · right; left; simp [patternEvents, buzzerLookup, h2]
      · by_cases h3 : p = "double"
        · right; right; left; simp [patternEvents, buzzerLookup, h3]
        · by_cases h4 : p = "triple"
          · right; right; right; simp [patternEvents, buzzerLookup, h4]
          · left; simp [patternEvents, buzzerLookup, h1, h2, h3, h4]
  · intro h1 h2 h3 h4
    simp [patternEvents, buzzerLookup, h1, h2, h3, h4]

/-- Witness for C10 at a concrete unknown pattern name. -/
theorem c10_witness :
    patternEvents "bogus" = [(100, 100)] := by
  exact (c10_buzzer_pattern_fallback "bogus").2 (by decide) (by decide)
    (by decide) (by decide)

/-! ### Value formatters (`oled-status/formatters.py`) and the sync view
(`oled-status/pages/home.py`, `_render_resync`) -/

/-- Python `int()` on a numeric value: truncation toward zero. -/
def pyInt (x : ℚ) : ℤ :=
  if 0 ≤ x then ⌊x⌋ else -⌊-x⌋

/-- Python `divmod` on integers: floor division and floor remainder. -/
def pyDivmod (a b : ℤ) : ℤ × ℤ :=
  (Int.fdiv a b, Int.fmod a b)

/-- Ten times the value shown by Python `f"{x:0.1f}"`: the nearest tenth
(ties rounded up; CPython rounds ties to even, a case no claim
exercises). -/
def round10 (x : ℚ) : ℤ := ⌊x * 10 + 1 / 2⌋

/-- The integer shown by Python `f"{x:0.0f}"` (same tie caveat). -/
def round1 (x : ℚ) : ℤ := ⌊x + 1 / 2⌋

/-- Render a nonnegative value with one decimal place, Python
`f"{x:0.1f}"`. -/
def fmtFix1 (x : ℚ) : String :=
  toString (Int.fdiv (round10 x) 10) ++ "." ++ toString (Int.fmod (round10 x) 10)

/-- `formatters.fmt_rate`: `K/s` below 1024, `M/s` below 1024², else
`G/s`; `none` models a non-numeric input (the `TypeError`/`ValueError`
path returning "N/A"). -/
def fmt_rate (k : Option ℚ) : String :=
  match k with
  | none => "N/A"
  | some k =>
      if k < 1024 then toString (round1 k) ++ "K/s"
      else if k < 1024 ^ 2 then fmtFix1 (k / 1024) ++ "M/s"
      else fmtFix1 (k / 1024 ^ 2) ++ "G/s"

/-- `formatters.fmt_time`: truncate to integer seconds, split with Python
`divmod` into minutes/hours/days, and render the day/hour/minute
cascade. -/
def fmt_time (seconds : Option ℚ) : String :=
  match seconds with
  | none => "N/A"
  | some x =>
      let t := pyInt x
      let ms := pyDivmod t 60
      let hm := pyDivmod ms.1 60
      let dh := pyDivmod hm.1 24
      if 0 < dh.1 then toString dh.1 ++ "d " ++ toString dh.2 ++ "h"
      else if 0 < dh.2 then toString dh.2 ++ "h " ++ toString hm.2 ++ "m"
      else toString hm.2 ++ "m"

/-- The `header_map.get(sync_action, "Syncing")` lookup of
`_render_resync`. -/
def syncHeader (sync_action : String) : String :=
  if sync_action == "resync" then "Resync"
  else if sync_action == "recovery" then "Recovery"
  else if sync_action == "recover" then "Recovery"
  else if sync_action == "check" then "Check"
  else if sync_action == "repair" then "Repair"
  else "Syncing"

/-- The four texts rendered by `_render_resync`. -/
structure SyncView where
  header : String
  prog : String
  rate : String
  eta : String
deriving DecidableEq

/-- `_render_resync`: dynamic header plus progress/rate/ETA values, "N/A"
for absent fields, ETA computed from `finish_min * 60` seconds. -/
def renderSyncVals (sync_action : String)
    (progress speed_kps finish_min : Option ℚ) : SyncView :=
  { header := syncHeader sync_action
    prog := match progress with
      | none => "N/A"
      | some p => fmtFix1 p ++ "%"
    rate := match speed_kps with
      | none => "N/A"
      | some k => fmt_rate (some k)
    eta := match finish_min with
      | none => "N/A"
      | some f => fmt_time (some (f * 60)) }

/-- C8: sync-view header and value formatting.  The header is the fixed
lookup from `sync_action` (`resync`→"Resync", `recovery`/`recover`→
"Recovery", `check`→"Check", `repair`→"Repair"), any other action falls
back to "Syncing"; and in the concrete scenario
`sync_action="resync"`, progress 52.2, speed 99181 K/sec, finish 396.1
min, the rendered values are "Resync", "52.2%", "96.9M/s" and
"6h 36m". -/
theorem c8_sync_view_formatting (sync_action : String)
    (progress speed_kps finish_min : Option ℚ) :
    (renderSyncVals "resync" progress speed_kps finish_min).header = "Resync" ∧
    (renderSyncVals "recovery" progress speed_kps finish_min).header = "Recovery" ∧
    (renderSyncVals "recover" progress speed_kps finish_min).header = "Recovery" ∧
    (renderSyncVals "check" progress speed_kps finish_min).header = "Check" ∧
    (renderSyncVals "repair" progress speed_kps finish_min).header = "Repair" ∧
    (sync_action ≠ "resync" → sync_action ≠ "recovery" → sync_action ≠ "recover" →
      sync_action ≠ "check" → sync_action ≠ "repair" →
      (renderSyncVals sync_action progress speed_kps finish_min).header = "Syncing") ∧
    renderSyncVals "resync" (some ((261 : ℚ) / 5)) (some 99181)
        (some ((3961 : ℚ) / 10)) =
      ⟨"Resync", "52.2%", "96.9M/s", "6h 36m"⟩ := by
  refine ⟨rfl, rfl, rfl, rfl, rfl, ?_, ?_⟩
  · intro h1 h2 h3 h4 h5
    simp [renderSyncVals, syncHeader, h1, h2, h3, h4, h5]
  · have hprog : round10 ((261 : ℚ) / 5) = 522 := by
      unfold round10
      rw [Int.floor_eq_iff]
      norm_num
    have hrate : round10 ((99181 : ℚ) / 1024) = 969 := by
      unfold round10
      rw [Int.floor_eq_iff]
      norm_num
    have heta : pyInt ((3961 : ℚ) / 10 * 60) = 23766 := by
      unfold pyInt
      rw [if_pos (by norm_num)]
      rw [Int.floor_eq_iff]
      norm_num
    have hlt1 : ¬((99181 : ℚ) < 1024) := by norm_num
    have hlt2 : (99181 : ℚ) < 1024 ^ 2 := by norm_num
    simp only [renderSyncVals, syncHeader, fmt_rate, fmt_time, fmtFix1,
      hprog, hrate, heta, hlt1, hlt2, if_true, if_false]
    rfl

/-- Witness for C8 at a concrete non-mapped sync action. -/
theorem c8_witness :
    (renderSyncVals "reshape" none none none).header = "Syncing" := by
  exact (c8_sync_view_formatting "reshape" none none none).2.2.2.2.2.1
    (by decide) (by decide) (by decide) (by decide) (by decide)

/-! ### Navigation state machine (`oled-status/main.py`: `on_button` and
the idle-timeout step of `main`) -/

/-- `config.NAV_TIMEOUT` (seconds). -/
def NAV_TIMEOUT : ℚ := 10

/-- The two navigation globals of `main.py`: `current_page` (-1 = home)
and `last_nav_at`. -/
structure NavState where
  currentPage : ℤ
  lastNavAt : ℚ
deriving DecidableEq

/-- `on_button(channel)` with `n = len(pages.BROWSE_PAGES)`: stamp
`last_nav_at = now`; from home go to page 0, else advance modulo `n`
(Python `%`, i.e. floor remainder). -/
def onButton (n : ℕ) (s : NavState) (now : ℚ) : NavState :=
  if s.currentPage = -1 then
    ⟨0, now⟩
  else
    ⟨(s.currentPage + 1) % (n : ℤ), now⟩

/-- The idle-timeout check run each tick of the main loop: if browsing and
`now - last_nav_at >= NAV_TIMEOUT`, force back to home. -/
def navTick (s : NavState) (now : ℚ) : NavState :=
  if s.currentPage ≠ -1 ∧ NAV_TIMEOUT ≤ now - s.lastNavAt then
    ⟨-1, s.lastNavAt⟩
  else
    s

/-- A navigation-relevant event: a button press or a scheduler tick, each
at a monotonic time. -/
inductive NavEvent
  | press (now : ℚ)
  | tick (now : ℚ)

/-- Apply one event. -/
def navStep (n : ℕ) (s : NavState) : NavEvent → NavState
  | .press now => onButton n s now
  | .tick now => navTick s now

/-- Run a sequence of events. -/
def navRun (n : ℕ) (s : NavState) (evs : List NavEvent) : NavState :=
  evs.foldl (navStep n) s

/-- The navigation invariant: home, or a valid browse index. -/
def navOk (n : ℕ) (s : NavState) : Prop :=
  s.currentPage = -1 ∨ (0 ≤ s.currentPage ∧ s.currentPage < (n : ℤ))

theorem navOk_onButton (n : ℕ) (s : NavState) (now : ℚ) (hn : 0 < n)
    (h : navOk n s) : navOk n (onButton n s now) := by
  rcases h with h | h
  · right
    simp [onButton, h]
    omega
  · right
    have hne : s.currentPage ≠ -1 := by omega
    simp [onButton, hne]
    constructor
    · exact Int.emod_nonneg _ (by omega)
    · exact Int.emod_lt_of_pos _ (by omega)

theorem navOk_tick (n : ℕ) (s : NavState) (now : ℚ) (h : navOk n s) :
    navOk n (navTick s now) := by
  unfold navTick
  by_cases hc : s.currentPage ≠ -1 ∧ NAV_TIMEOUT ≤ now - s.lastNavAt
  · simp [hc, navOk]
  · simpa [hc] using h

theorem navRun_press_count (n : ℕ) (hn : 0 < n) (ts : List ℚ)
    (s : NavState) (h0 : 0 ≤ s.currentPage) (h1 : s.currentPage < (n : ℤ)) :
    (navRun n s (ts.map NavEvent.press)).currentPage =
      (s.currentPage + ts.length) % (n : ℤ) := by
  induction ts generalizing s with
  | nil =>
      simp only [List.map_nil, navRun, List.foldl_nil, List.length_nil,
        Nat.cast_zero, add_zero]
      exact (Int.emod_eq_of_lt h0 h1).symm
  | cons t ts ih =>
      have hne : s.currentPage ≠ -1 := by omega
      have hstep : navStep n s (NavEvent.press t) =
          ⟨(s.currentPage + 1) % (n : ℤ), t⟩ := by
        simp [navStep, onButton, hne]
      simp only [List.map_cons, navRun, List.foldl_cons]
      rw [show List.foldl (navStep n) (navStep n s (NavEvent.press t))
            (ts.map NavEvent.press) =
          navRun n (navStep n s (NavEvent.press t)) (ts.map NavEvent.press) from rfl]
      rw [hstep]
      rw [ih ⟨(s.currentPage + 1) % (n : ℤ), t⟩
        (Int.emod_nonneg _ (by omega)) (Int.emod_lt_of_pos _ (by omega))]
      simp only [List.length_cons]
      rw [Int.emod_add_emod]
      congr 1
      push_cast
      ring

/-- C4: navigation state machine.  (1) A press from home (-1) selects page
0; (2) a press from page `i ≥ 0` selects `(i+1) mod N`; (3) every press
stamps `last_nav_at = now`; (4) `N` presses starting from page 0 return
to page 0; (5) a tick at `now` forces a browsing state back to home
exactly when `now - last_nav_at ≥ NAV_TIMEOUT`, and otherwise changes
nothing; (6) under every sequence of presses and ticks from the initial
state, `current_page` is `-1` or in `[0, N)`. -/
theorem c4_navigation_state_machine (n : ℕ) (s : NavState) (now t0 : ℚ)
    (evs : List NavEvent) (ts : List ℚ) (hn : 0 < n) :
    (s.currentPage = -1 → onButton n s now = ⟨0, now⟩) ∧
    (s.currentPage ≠ -1 →
      onButton n s now = ⟨(s.currentPage + 1) % (n : ℤ), now⟩) ∧
    (onButton n s now).lastNavAt = now ∧
    (s.currentPage = 0 → ts.length = n →
      (navRun n s (ts.map NavEvent.press)).currentPage = 0) ∧
    (s.currentPage ≠ -1 → NAV_TIMEOUT ≤ now - s.lastNavAt →
      (navTick s now).currentPage = -1) ∧
    (¬(s.currentPage ≠ -1 ∧ NAV_TIMEOUT ≤ now - s.lastNavAt) →
      navTick s now = s) ∧
    navOk n (navRun n ⟨-1, t0⟩ evs) := by
  refine ⟨?_, ?_, ?_, ?_, ?_, ?_, ?_⟩
  · intro h; simp [onButton, h]
  · intro h; simp [onButton, h]
  · by_cases h : s.currentPage = -1 <;> simp [onButton, h]
  · intro h0 hlen
    rw [navRun_press_count n hn ts s (by omega) (by omega)]
    rw [h0, hlen, zero_add, Int.emod_self]
  · intro h1 h2
    simp [navTick, h1, h2]
  · intro h
    simp only [navTick, if_neg h]
  · have : navOk n (⟨-1, t0⟩ : NavState) := Or.inl rfl
    revert this
    generalize (⟨-1, t0⟩ : NavState) = s0
    intro h
    induction evs generalizing s0 with
    | nil => simpa [navRun] using h
    | cons ev evs ih =>
        simp only [navRun, List.foldl_cons]
        cases ev with
        | press tm =>
            exact ih (navStep n s0 (NavEvent.press tm))
              (navOk_onButton n s0 tm hn h)
        | tick tm =>
            exact ih (navStep n s0 (NavEvent.tick tm)) (navOk_tick n s0 tm h)

/-- Witness for C4 at concrete inputs: two browse pages, a press from
home, a press from page 1 wrapping to 0, two presses from page 0
returning to page 0, a timeout tick, a no-op tick, and the invariant for
a concrete event sequence. -/
theorem c4_witness :
    (onButton 2 ⟨-1, 0⟩ 5 = ⟨0, 5⟩) ∧
    (onButton 2 ⟨1, 3⟩ 5 = ⟨(1 + 1) % (2 : ℤ), 5⟩) ∧
    (onButton 2 ⟨-1, 0⟩ 5).lastNavAt = 5 ∧
    (navRun 2 ⟨0, 5⟩ ([6, 7].map NavEvent.press)).currentPage = 0 ∧
    (navTick ⟨0, 5⟩ 20).currentPage = -1 ∧
    navTick ⟨0, 5⟩ 6 = ⟨0, 5⟩ ∧
    navOk 2 (navRun 2 ⟨-1, 0⟩ [NavEvent.press 1, NavEvent.tick 20]) := by
  have h1 := c4_navigation_state_machine 2 ⟨-1, 0⟩ 5 0
    [NavEvent.press 1, NavEvent.tick 20] [6, 7] (by norm_num)
  have h2 := c4_navigation_state_machine 2 ⟨1, 3⟩ 5 0
    [NavEvent.press 1, NavEvent.tick 20] [6, 7] (by norm_num)
  have h3 := c4_navigation_state_machine 2 ⟨0, 5⟩ 20 0
    [NavEvent.press 1, NavEvent.tick 20] [6, 7] (by norm_num)
  have h4 := c4_navigation_state_machine 2 ⟨0, 5⟩ 6 0
    [NavEvent.press 1, NavEvent.tick 20] [6, 7] (by norm_num)
  refine ⟨h1.1 rfl, h2.2.1 (by decide), h1.2.2.1, ?_, ?_, ?_, h1.2.2.2.2.2.2⟩
  · exact h3.2.2.2.1 rfl rfl
  · exact h3.2.2.2.2.1 (by decide) (by norm_num [NAV_TIMEOUT])
  · refine h4.2.2.2.2.2.1 ?_
    intro hc
    have := hc.2
    norm_num [NAV_TIMEOUT] at this

/-! ### RAID alarm check (`oled-status/alarms.py`, the RAID section of
`check`) -/

/-- The RAID section of `alarms.check`: the degraded test comes first, the
resync test is its `elif`, and both alarms are cleared only in the final
`else`.  Returns the new alarm state and the buzzer patterns
dispatched. -/
def raidAlarmCheck (st : AlarmState) (now : ℚ)
    (array_state sync_action : String) : AlarmState × List String :=
  if containsDegraded array_state then
    let r := shouldAlert st "raid_degraded" now
    (r.2, if r.1 then ["double"] else [])
  else if sync_action == "resync" || sync_action == "recovery" ||
      sync_action == "recover" then
    let r := shouldAlert st "raid_resync" now
    (r.2, if r.1 then ["short"] else [])
  else
    (alarmClear (alarmClear st "raid_degraded") "raid_resync", [])

/-- Fresh alarm state with the production five-minute cooldown. -/
def freshAlarm : AlarmState := ⟨300, fun _ => none⟩

/-- Alarm state carrying a `raid_resync` stamp, for the C5
counterexample. -/
def resyncStamped : AlarmState :=
  ⟨300, fun k => if k = "raid_resync" then some 5 else none⟩

/-- C5 counterexample: with `sync_action="resync"` and
`array_state="clean, degraded"`, the engine dispatches `double` (the
degraded alarm), not `short` — the resync check is not independent of the
degraded check — and with `sync_action="idle"` on a degraded array the
`raid_resync` alarm is not cleared. -/
theorem c5_counterexample :
    (raidAlarmCheck freshAlarm 1000000 "clean, degraded" "resync").2 =
      ["double"] ∧
    "short" ∉ (raidAlarmCheck freshAlarm 1000000 "clean, degraded" "resync").2 ∧
    (raidAlarmCheck resyncStamped 1000000 "degraded" "idle").1.lastAlert
      "raid_resync" = some 5 := by
  have hdeg1 : containsDegraded "clean, degraded" = true := by decide
  have hdeg2 : containsDegraded "degraded" = true := by decide
  refine ⟨?_, ?_, ?_⟩
  · simp only [raidAlarmCheck, hdeg1, if_true]
    norm_num [shouldAlert, freshAlarm]
  · simp only [raidAlarmCheck, hdeg1, if_true]
    norm_num [shouldAlert, freshAlarm]
    decide
  · simp only [raidAlarmCheck, hdeg2, if_true]
    norm_num [shouldAlert, resyncStamped,
      show ("raid_resync" : String) ≠ "raid_degraded" by decide,
      show ("raid_degraded" : String) ≠ "raid_resync" by decide]

/-- C5 as amended: the resync condition is evaluated only when
`array_state` does not contain `degraded`; in that case `sync_action ∈
{resync, recovery, recover}` dispatches `short` subject to the
`raid_resync` cooldown, and otherwise both `raid_degraded` and
`raid_resync` are cleared.  When the array is degraded, the degraded
branch runs instead and the `raid_resync` stamp is left untouched. -/
theorem c5_resync_alarm_gated (st : AlarmState) (now : ℚ)
    (array_state sync_action : String) :
    (containsDegraded array_state = false →
      (sync_action == "resync" || sync_action == "recovery" ||
        sync_action == "recover") = true →
      raidAlarmCheck st now array_state sync_action =
        ((shouldAlert st "raid_resync" now).2,
          if (shouldAlert st "raid_resync" now).1 then ["short"] else [])) ∧
    (containsDegraded array_state = false →
      (sync_action == "resync" || sync_action == "recovery" ||
        sync_action == "recover") = false →
      raidAlarmCheck st now array_state sync_action =
        (alarmClear (alarmClear st "raid_degraded") "raid_resync", [])) ∧
    (containsDegraded array_state = true →
      raidAlarmCheck st now array_state sync_action =
        ((shouldAlert st "raid_degraded" now).2,
          if (shouldAlert st "raid_degraded" now).1 then ["double"] else []) ∧
      (raidAlarmCheck st now array_state sync_action).1.lastAlert
        "raid_resync" = st.lastAlert "raid_resync") := by
  refine ⟨?_, ?_, ?_⟩
  · intro hdeg hsync
    simp [raidAlarmCheck, hdeg, hsync]
  · intro hdeg hsync
    simp [raidAlarmCheck, hdeg, hsync]
  · intro hdeg
    constructor
    · simp [raidAlarmCheck, hdeg]
    · simp only [raidAlarmCheck, hdeg, if_true]
      by_cases htrig : st.cooldown ≤ now - (st.lastAlert "raid_degraded").getD 0
      · simp only [shouldAlert, if_pos htrig]
        rw [if_neg (show ¬("raid_resync" : String) = "raid_degraded" by decide)]
      · simp [shouldAlert, htrig]

/-- Witness for the amended C5 at concrete inputs: a non-degraded array
with an active resync dispatches `short`; a non-degraded idle array
clears both alarms; a degraded array runs the degraded branch and keeps
the `raid_resync` stamp. -/
theorem c5_witness :
    (raidAlarmCheck freshAlarm 1000000 "clean" "resync" =
      ((shouldAlert freshAlarm "raid_resync" 1000000).2,
        if (shouldAlert freshAlarm "raid_resync" 1000000).1 then ["short"]
        else [])) ∧
    (raidAlarmCheck freshAlarm 1000000 "clean" "idle" =
      (alarmClear (alarmClear freshAlarm "raid_degraded") "raid_resync", [])) ∧
    (raidAlarmCheck resyncStamped 1000000 "degraded" "idle" =
      ((shouldAlert resyncStamped "raid_degraded" 1000000).2,
        if (shouldAlert resyncStamped "raid_degraded" 1000000).1 then ["double"]
        else []) ∧
      (raidAlarmCheck resyncStamped 1000000 "degraded" "idle").1.lastAlert
        "raid_resync" = resyncStamped.lastAlert "raid_resync") := by
  refine ⟨?_, ?_, ?_⟩
  · exact (c5_resync_alarm_gated freshAlarm 1000000 "clean" "resync").1
      (by decide) (by decide)
  · exact (c5_resync_alarm_gated freshAlarm 1000000 "clean" "idle").2.1
      (by decide) (by decide)
  · exact (c5_resync_alarm_gated resyncStamped 1000000 "degraded" "idle").2.2
      (by decide)

/-! ### mdadm status fetch (`oled-status/sources/mdadm.py`,
`MdadmSource._get_status` and `_fetch`) -/

/-- A Python exception kind relevant to the sources. -/
inductive PyErr
  | fileNotFound
  | permissionError
  | keyError
  | otherErr
deriving DecidableEq

/-- Result of `open(path).read()` against a file-system oracle. -/
inductive FileRes
  | ok (content : String)
  | err (e : PyErr)
deriving DecidableEq

/-- Python `str.strip()` (ASCII whitespace). -/
def pyStrip (s : String) : String :=
  ⟨((s.data.dropWhile Char.isWhitespace).reverse.dropWhile
      Char.isWhitespace).reverse⟩

/-- The regex character class `[\d\.]`. -/
def numChar (c : Char) : Bool := c.isDigit || c == '.'

/-- Greedy `[\d\.]+`-style run: the matched prefix and the rest. -/
def takeNum : List Char → List Char × List Char
  | [] => ([], [])
  | c :: cs =>
      if numChar c then
        let r := takeNum cs
        (c :: r.1, r.2)
      else ([], c :: cs)

/-- Greedy `\s*`: drop leading whitespace. -/
def dropWs : List Char → List Char
  | [] => []
  | c :: cs => if c.isWhitespace then dropWs cs else c :: cs

/-- Match `\s*=\s*([\d\.]+)%` and return the captured number text. -/
def eqNumPct (cs : List Char) : Option (List Char) :=
  match dropWs cs with
  | '=' :: rest =>
      let r := takeNum (dropWs rest)
      if r.1 ≠ [] then
        match r.2 with
        | '%' :: _ => some r.1
        | _ => none
      else none
  | _ => none

/-- The alternation `(resync|check|recover|recovery)` in source order
(regex alternation tries alternatives left to right with backtracking). -/
def kwList : List (List Char) :=
  ["resync".data, "check".data, "recover".data, "recovery".data]

/-- Try the action alternation followed by `\s*=\s*([\d\.]+)%` at this
position. -/
def matchActionPct (cs : List Char) : Option (List Char) :=
  kwList.findSome? fun kw =>
    if leadMatch kw cs then eqNumPct (cs.drop kw.length) else none

/-- Leftmost position at which the action-percent pattern matches (the
lazy `.*?` picks the earliest continuation). -/
def searchActionPct : List Char → Option (List Char)
  | [] => none
  | c :: cs =>
      match matchActionPct (c :: cs) with
      | some n => some n
      | none => searchActionPct cs

/-- `re.search(rf"{md} :.*?(resync|check|recover|recovery)\s*=\s*([\d\.]+)%",
mdstat, re.DOTALL)`: the match anchors at the first occurrence of
`"{md} :"` and, the pattern being DOTALL with a lazy gap, captures the
first action-percent occurrence anywhere after that anchor — across
lines, so possibly inside a different array's stanza. -/
def progressSearch (md : List Char) : List Char → Option (List Char)
  | [] => none
  | c :: cs =>
      if leadMatch (md ++ (" :".data)) (c :: cs) then
        searchActionPct ((c :: cs).drop (md.length + 2))
      else progressSearch md cs

/-- Match `finish=([\d\.]+)min` at this position. -/
def matchFinish (cs : List Char) : Option (List Char) :=
  if leadMatch "finish=".data cs then
    let r := takeNum (cs.drop 7)
    if r.1 ≠ [] ∧ leadMatch "min".data r.2 then some r.1 else none
  else none

/-- `re.search(r"finish=([\d\.]+)min", mdstat)`: first match anywhere in
the whole log, not tied to any device line. -/
def finishSearch : List Char → Option (List Char)
  | [] => none
  | c :: cs =>
      match matchFinish (c :: cs) with
      | some n => some n
      | none => finishSearch cs

/-- Match `speed=([\d\.]+)K/sec` at this position. -/
def matchSpeed (cs : List Char) : Option (List Char) :=
  if leadMatch "speed=".data cs then
    let r := takeNum (cs.drop 6)
    if r.1 ≠ [] ∧ leadMatch "K/sec".data r.2 then some r.1 else none
  else none

/-- `re.search(r"speed=([\d\.]+)K/sec", mdstat)`: first match anywhere in
the whole log. -/
def speedSearch : List Char → Option (List Char)
  | [] => none
  | c :: cs =>
      match matchSpeed (c :: cs) with
      | some n => some n
      | none => speedSearch cs

/-- Numeric value of a digit run. -/
def digitsVal (cs : List Char) : ℕ :=
  cs.foldl (fun a c => a * 10 + (c.toNat - 48)) 0

/-- The rational `intPart.frac` with `k` fractional digits. -/
def decVal (intPart frac k : ℕ) : ℚ :=
  (intPart : ℚ) + (frac : ℚ) / 10 ^ k

/-- Python `float()` applied to a `[\d\.]+` match: `none` models
`ValueError` (more than one dot, or a bare dot). -/
def parseFloat (cs : List Char) : Option ℚ :=
  let dots := cs.countP (fun c => c == '.')
  if dots = 0 then
    if cs ≠ [] then some (decVal (digitsVal cs) 0 0) else none
  else if dots = 1 then
    if cs.length = 1 then none
    else
      let a := cs.takeWhile (fun c => !(c == '.'))
      let b := (cs.dropWhile (fun c => !(c == '.'))).drop 1
      some (decVal (digitsVal a) (digitsVal b) b.length)
  else none

/-- The dict produced by `MdadmSource._get_status`. -/
structure ArrayStatus where
  array_state : Option String := none
  sync_action : Option String := none
  progress : Option ℚ := none
  finish_min : Option ℚ := none
  speed_kps : Option ℚ := none
deriving DecidableEq

/-- `result["progress"] = float(m_pct.group(2))` when the progress regex
matches; `none` models a raised `ValueError`. -/
def setProgress (md : String) (mdstat : List Char) (r : ArrayStatus) :
    Option ArrayStatus :=
  match progressSearch md.data mdstat with
  | none => some r
  | some n =>
      match parseFloat n with
      | none => none
      | some p => some { r with progress := some p }

/-- `result["finish_min"] = float(m_finish.group(1))` when the finish
regex matches. -/
def setFinish (mdstat : List Char) (r : ArrayStatus) : Option ArrayStatus :=
  match finishSearch mdstat with
  | none => some r
  | some n =>
      match parseFloat n with
      | none => none
      | some f => some { r with finish_min := some f }

/-- `result["speed_kps"] = float(m_speed.group(1))` when the speed regex
matches. -/
def setSpeed (mdstat : List Char) (r : ArrayStatus) : Option ArrayStatus :=
  match speedSearch mdstat with
  | none => some r
  | some n =>
      match parseFloat n with
      | none => none
      | some v => some { r with speed_kps := some v }

/-- The `# 3. Parse /proc/mdstat` block: three regex/assign steps inside
one `try`; an exception at any step keeps the fields assigned so far
(`except Exception: pass`). -/
def parseMdstat (md : String) (mdstat : List Char) (r : ArrayStatus) :
    ArrayStatus :=
  match setProgress md mdstat r with
  | none => r
  | some r1 =>
      match setFinish mdstat r1 with
      | none => r1
      | some r2 =>
          match setSpeed mdstat r2 with
          | none => r2
          | some r3 => r3

/-- One `try: open(path) ... except FileNotFoundError: pass` read of a
sysfs state file: stripped content on success, absent on
`FileNotFoundError`; any other exception propagates. -/
def readStateFile (fs : String → FileRes) (path : String) :
    Except PyErr (Option String) :=
  match fs path with
  | .ok c => .ok (some (pyStrip c))
  | .err .fileNotFound => .ok none
  | .err e => .error e

/-- `MdadmSource._get_status` over a file-system oracle; `md` is
`self.md_name` (`none` when unresolved). -/
def mdadmGetStatus (md : Option String) (fs : String → FileRes) :
    Except PyErr ArrayStatus :=
  match md with
  | none => .ok {}
  | some md =>
      match readStateFile fs ("/sys/block/" ++ md ++ "/md/array_state") with
      | .error e => .error e
      | .ok as =>
          match readStateFile fs ("/sys/block/" ++ md ++ "/md/sync_action") with
          | .error e => .error e
          | .ok sa =>
              let r : ArrayStatus := { array_state := as, sync_action := sa }
              match sa with
              | some s =>
                  if s ≠ "" ∧ s ≠ "idle" ∧ s ≠ "frozen" then
                    match fs "/proc/mdstat" with
                    | .ok mdstat => .ok (parseMdstat md mdstat.data r)
                    | .err _ => .ok r
                  else .ok r
              | none => .ok r

/-- Values returned by `MdadmSource._fetch`. -/
inductive MdadmValue
  | status (s : ArrayStatus)
  | name (n : Option String)
  | noneV
deriving DecidableEq

/-- `MdadmSource._fetch(key)`; name resolution (`_resolve_md_name`)
catches all its exceptions internally, so the resolved name is an
input. -/
def mdadmFetch (md : Option String) (fs : String → FileRes) (key : String) :
    Except PyErr MdadmValue :=
  if key == "status" then (mdadmGetStatus md fs).map .status
  else if key == "name" then .ok (.name md)
  else .ok .noneV

/-! ### Fetch-failure containment (C6): Glances and system sources, and
`get` over a fetch that may raise -/

/-- `GlancesSource._fetch`: the whole body — HTTP get, status check, JSON
decode and SMART parsing — sits in a single `try`; the oracle `net`
produces either the parsed value or a raised exception, which the
`except Exception` clause converts to `None`. -/
def glancesFetch (net : String → Except PyErr α) (endpoint : String) :
    Except PyErr (Option α) :=
  match net endpoint with
  | .ok v => .ok (some v)
  | .error _ => .ok none

/-- The throttle-flag dict of `SystemSource._get_power_throttled`. -/
structure ThrottleFlags where
  under_voltage : Bool
  freq_capped : Bool
  throttled : Bool
  soft_temp_limit : Bool
  under_voltage_occurred : Bool
  freq_capped_occurred : Bool
  throttled_occurred : Bool
  soft_temp_limit_occurred : Bool
  raw : String
deriving DecidableEq

/-- The all-false default dict returned when `vcgencmd` fails. -/
def throttleDefaults : ThrottleFlags :=
  ⟨false, false, false, false, false, false, false, false, "0x0"⟩

/-- Values returned by `SystemSource._fetch`. -/
inductive SystemValue
  | ip (s : String)
  | uptime (u : Option ℚ)
  | throttled (t : ThrottleFlags)
  | cpuTemp (t : Option ℚ)
  | noneV
deriving DecidableEq

/-- Oracles for the OS interactions of `SystemSource`; each `Except`
models a call chain (socket trick, file read and parse, `vcgencmd`
invocation and parse) with any raised exception as `error`. -/
structure SysOracle where
  sock : Except PyErr String
  uptimeFile : Except PyErr ℚ
  vcgencmdThrottled : Except PyErr ThrottleFlags
  vcgencmdTemp : Except PyErr ℚ

/-- `SystemSource._fetch(key)`: every helper wraps its body in
`try ... except Exception` and returns a default on failure. -/
def systemFetch (o : SysOracle) (key : String) : Except PyErr SystemValue :=
  if key == "ip" then
    .ok (.ip (match o.sock with | .ok s => s | .error _ => "unknown"))
  else if key == "uptime" then
    .ok (.uptime (match o.uptimeFile with | .ok q => some q | .error _ => none))
  else if key == "power_throttled" then
    .ok (.throttled (match o.vcgencmdThrottled with
      | .ok t => t
      | .error _ => throttleDefaults))
  else if key == "cpu_temp" then
    .ok (.cpuTemp (match o.vcgencmdTemp with | .ok t => some t | .error _ => none))
  else .ok .noneV

/-- `CachedDataSource.get` when `_fetch` may raise: `get` has no handler,
so a raise propagates; `keyError` models the timestamp lookup failing on
the hit path. -/
def cacheGetE (fetch : String → Except PyErr α) (st : CacheState α) (now : ℚ)
    (key : String) (ttl : ℚ) : Except PyErr (α × CacheState α × Nat) :=
  match st.cache key with
  | some v =>
      match st.timestamps key with
      | some t =>
          if now - t < ttl then .ok (v, st, 0)
          else
            match fetch key with
            | .ok v' =>
                .ok (v', ⟨fun k => if k = key then some v' else st.cache k,
                  fun k => if k = key then some now else st.timestamps k⟩, 1)
            | .error e => .error e
      | none => .error .keyError
  | none =>
      match fetch key with
      | .ok v' =>
          .ok (v', ⟨fun k => if k = key then some v' else st.cache k,
            fun k => if k = key then some now else st.timestamps k⟩, 1)
      | .error e => .error e

/-- File-system oracle where the `array_state` sysfs read raises
`PermissionError`. -/
def permFs : String → FileRes := fun p =>
  if p = "/sys/block/md0/md/array_state" then .err .permissionError
  else .err .fileNotFound

/-- C6 counterexample: a `PermissionError` from the `array_state` sysfs
read is not caught inside `MdadmSource._get_status` (which handles only
`FileNotFoundError` there), so `get("status", ttl)` raises. -/
theorem c6_counterexample :
    mdadmGetStatus (some "md0") permFs = .error .permissionError ∧
    cacheGetE (mdadmFetch (some "md0") permFs) (CacheState.init MdadmValue)
      100 "status" 5 = .error .permissionError := by
  constructor
  · rfl
  · rfl

theorem readStateFile_ok (fs : String → FileRes) (p : String)
    (h : (∃ c, fs p = .ok c) ∨ fs p = .err .fileNotFound) :
    ∃ v, readStateFile fs p = .ok v := by
  rcases h with ⟨c, hc⟩ | hc <;> simp [readStateFile, hc]

theorem mdadmGetStatus_ok (md : Option String) (fs : String → FileRes)
    (h : ∀ p, (∃ c, fs p = .ok c) ∨ fs p = .err .fileNotFound) :
    ∃ r, mdadmGetStatus md fs = .ok r := by
  cases md with
  | none => exact ⟨{}, rfl⟩
  | some m =>
      obtain ⟨as, has⟩ := readStateFile_ok fs ("/sys/block/" ++ m ++ "/md/array_state") (h _)
      obtain ⟨sa, hsa⟩ := readStateFile_ok fs ("/sys/block/" ++ m ++ "/md/sync_action") (h _)
      cases sa with
      | none =>
          simp only [mdadmGetStatus, has, hsa]
          exact ⟨_, rfl⟩
      | some s =>
          by_cases hact : s ≠ "" ∧ s ≠ "idle" ∧ s ≠ "frozen"
          · rcases h "/proc/mdstat" with ⟨c, hc⟩ | hc
            · simp only [mdadmGetStatus, has, hsa, hc, if_pos hact]
              exact ⟨_, rfl⟩
            · simp only [mdadmGetStatus, has, hsa, hc, if_pos hact]
              exact ⟨_, rfl⟩
          · simp only [mdadmGetStatus, has, hsa, if_neg hact]
            exact ⟨_, rfl⟩

/-- C6 as amended: `get` never raises for the Glances and system sources
(every exception is caught inside `_fetch`); for the mdadm source it
never raises provided its file reads fail only with `FileNotFoundError` —
but a different exception (e.g. `PermissionError`) from the sysfs state
reads escapes `_get_status` and hence `get` (the counterexample above).
The cache wrapper itself propagates only what `_fetch` raises: with a
non-raising `_fetch` and consistent cache maps, `get` cannot raise. -/
theorem c6_fetch_failure_containment (α : Type)
    (net : String → Except PyErr α) (endpoint : String) (o : SysOracle)
    (key : String) (md : Option String) (fs : String → FileRes)
    (fetch : String → Except PyErr α) (st : CacheState α) (now ttl : ℚ) :
    (∃ v, glancesFetch net endpoint = .ok v) ∧
    (∃ v, systemFetch o key = .ok v) ∧
    ((∀ p, (∃ c, fs p = .ok c) ∨ fs p = .err .fileNotFound) →
      ∃ v, mdadmFetch md fs key = .ok v) ∧
    (cacheInv st → (∀ k, ∃ v, fetch k = .ok v) →
      ∃ v, cacheGetE fetch st now key ttl = .ok v) := by
  refine ⟨?_, ?_, ?_, ?_⟩
  · cases h : net endpoint <;> simp [glancesFetch, h]
  · unfold systemFetch
    split_ifs <;> exact ⟨_, rfl⟩
  · intro h
    unfold mdadmFetch
    split_ifs with h1 h2
    · obtain ⟨r, hr⟩ := mdadmGetStatus_ok md fs h
      exact ⟨.status r, by rw [hr]; rfl⟩
    · exact ⟨_, rfl⟩
    · exact ⟨_, rfl⟩
  · intro hinv htot
    cases hc : st.cache key with
    | none =>
        obtain ⟨v, hv⟩ := htot key
        simp only [cacheGetE, hc, hv]
        exact ⟨_, rfl⟩
    | some v =>
        have hts : (st.timestamps key).isSome := (hinv key).mp (by simp [hc])
        cases ht : st.timestamps key with
        | none => simp [ht] at hts
        | some t =>
            by_cases hf : now - t < ttl
            · simp only [cacheGetE, hc, ht, if_pos hf]
              exact ⟨_, rfl⟩
            · obtain ⟨v', hv'⟩ := htot key
              simp only [cacheGetE, hc, ht, if_neg hf, hv']
              exact ⟨_, rfl⟩

/-- Witness for the amended C6 at concrete inputs: a failing network
oracle, a failing system oracle, an all-absent file system, and a fresh
cache with a non-raising fetch. -/
theorem c6_witness :
    (∃ v, glancesFetch (fun _ => (.error .otherErr : Except PyErr Nat)) "smart" = .ok v) ∧
    (∃ v, systemFetch ⟨.error .otherErr, .error .otherErr, .error .otherErr,
        .error .otherErr⟩ "power_throttled" = .ok v) ∧
    (∃ v, mdadmFetch (some "md0") (fun _ => .err .fileNotFound) "status" = .ok v) ∧
    (∃ v, cacheGetE (fun _ => (.ok 0 : Except PyErr Nat)) (CacheState.init Nat)
        100 "power_throttled" 10 = .ok v) := by
  have h := c6_fetch_failure_containment Nat (fun _ => .error .otherErr)
    "smart" ⟨.error .otherErr, .error .otherErr, .error .otherErr, .error .otherErr⟩
    "power_throttled" (some "md0") (fun _ => .err .fileNotFound)
    (fun _ => .ok 0) (CacheState.init Nat) 100 10
  refine ⟨h.1, h.2.1, ?_, ?_⟩
  · have h' := c6_fetch_failure_containment Nat (fun _ => .error .otherErr)
      "smart" ⟨.error .otherErr, .error .otherErr, .error .otherErr, .error .otherErr⟩
      "status" (some "md0") (fun _ => .err .fileNotFound)
      (fun _ => .ok 0) (CacheState.init Nat) 100 10
    exact h'.2.2.1 (fun p => Or.inr rfl)
  · exact h.2.2.2 (cacheInv_init Nat) (fun k => ⟨0, rfl⟩)

/-! ### Array status parsing (C7) -/

theorem setProgress_sync_action (md : String) (c : List Char)
    (r r' : ArrayStatus) (h : setProgress md c r = some r') :
    r'.sync_action = r.sync_action := by
  unfold setProgress at h
  cases hp : progressSearch md.data c with
  | none =>
      rw [hp] at h
      injection h with h
      cases h
      rfl
  | some n =>
      simp only [hp] at h
      cases hf : parseFloat n with
      | none =>
          simp only [hf] at h
          exact Option.noConfusion h
      | some p =>
          simp only [hf] at h
          injection h with h
          cases h
          rfl

theorem setFinish_sync_action (c : List Char) (r r' : ArrayStatus)
    (h : setFinish c r = some r') : r'.sync_action = r.sync_action := by
  unfold setFinish at h
  cases hp : finishSearch c with
  | none =>
      rw [hp] at h
      injection h with h
      cases h
      rfl
  | some n =>
      simp only [hp] at h
      cases hf : parseFloat n with
      | none =>
          simp only [hf] at h
          exact Option.noConfusion h
      | some p =>
          simp only [hf] at h
          injection h with h
          cases h
          rfl

theorem setSpeed_sync_action (c : List Char) (r r' : ArrayStatus)
    (h : setSpeed c r = some r') : r'.sync_action = r.sync_action := by
  unfold setSpeed at h
  cases hp : speedSearch c with
  | none =>
      rw [hp] at h
      injection h with h
      cases h
      rfl
  | some n =>
      simp only [hp] at h
      cases hf : parseFloat n with
      | none =>
          simp only [hf] at h
          exact Option.noConfusion h
      | some p =>
          simp only [hf] at h
          injection h with h
          cases h
          rfl

theorem parseMdstat_sync_action (md : String) (c : List Char)
    (r : ArrayStatus) : (parseMdstat md c r).sync_action = r.sync_action := by
  cases h1 : setProgress md c r with
  | none => simp only [parseMdstat, h1]
  | some r1 =>
      have e1 := setProgress_sync_action md c r r1 h1
      cases h2 : setFinish c r1 with
      | none =>
          simp only [parseMdstat, h1, h2]
          exact e1
      | some r2 =>
          have e2 := setFinish_sync_action c r1 r2 h2
          cases h3 : setSpeed c r2 with
          | none =>
              simp only [parseMdstat, h1, h2, h3]
              exact e2.trans e1
          | some r3 =>
              simp only [parseMdstat, h1, h2, h3]
              exact (setSpeed_sync_action c r2 r3 h3).trans (e2.trans e1)

/-- A status log with a single array carrying its own sync line (the
values of the C8 end-to-end scenario). -/
def mdstatOne : String :=
  "Personalities : [raid1]\nmd0 : active raid1 sdb1[1] sda1[0]\n      [==>.....]  resync = 52.2% (500/1000) finish=396.1min speed=99181K/sec\n\nunused devices: <none>\n"

/-- File-system oracle for the single-array scenario: `md0` clean and
resyncing. -/
def fsOne : String → FileRes := fun p =>
  if p = "/sys/block/md0/md/array_state" then .ok "clean\n"
  else if p = "/sys/block/md0/md/sync_action" then .ok "resync\n"
  else if p = "/proc/mdstat" then .ok mdstatOne
  else .err .fileNotFound

/-- A status log with two arrays: `md0` (the resolved device) has no sync
activity in the log, while `md1`'s stanza carries a recovery line with
percent, finish and speed. -/
def mdstatTwo : String :=
  "Personalities : [raid1]\nmd0 : active raid1 sdb1[1] sda1[0]\n      1000 blocks\nmd1 : active raid1 sdd1[1] sdc1[0]\n      [==>.....]  recovery = 12.5% (125/1000) finish=10.0min speed=5000K/sec\n\nunused devices: <none>\n"

/-- File-system oracle for the two-array scenario: `md0`'s sysfs says
`check`, but only `md1` has numbers in the log. -/
def fsTwo : String → FileRes := fun p =>
  if p = "/sys/block/md0/md/array_state" then .ok "clean\n"
  else if p = "/sys/block/md0/md/sync_action" then .ok "check\n"
  else if p = "/proc/mdstat" then .ok mdstatTwo
  else .err .fileNotFound

/-- C7 counterexample: fetching status for `md0` against the two-array
log returns `progress=12.5`, `finish_min=10.0` and `speed_kps=5000` —
all three taken from `md1`'s recovery line (`md0`'s stanza holds no such
numbers): the progress regex is DOTALL and crosses into `md1`'s stanza,
and the finish/speed regexes search the whole log unanchored, as the
last conjunct shows directly. -/
theorem c7_counterexample :
    (mdadmGetStatus (some "md0") fsTwo = .ok
      { array_state := some "clean", sync_action := some "check",
        progress := some (decVal 12 5 1), finish_min := some (decVal 10 0 1),
        speed_kps := some (decVal 5000 0 0) }) ∧
    (decVal 12 5 1 = 125 / 10 ∧ decVal 10 0 1 = 10 ∧ decVal 5000 0 0 = 5000) ∧
    finishSearch mdstatTwo.data = some "10.0".data ∧
    speedSearch mdstatTwo.data = some "5000".data := by
  refine ⟨rfl, ?_, rfl, rfl⟩
  norm_num [decVal]

/-- C7, gate direction plus the in-range scenario: the progress, finish
and speed fields can be present only when `sync_action` was read,
non-empty and not `idle`/`frozen`; and in the single-array scenario the
fields parse to that array's own values (52.2%, 396.1 min, 99181
K/sec). -/
theorem c7_status_parsing (md : Option String) (fs : String → FileRes)
    (r : ArrayStatus) :
    (mdadmGetStatus md fs = .ok r →
      (r.progress ≠ none ∨ r.finish_min ≠ none ∨ r.speed_kps ≠ none) →
      ∃ s, r.sync_action = some s ∧ s ≠ "" ∧ s ≠ "idle" ∧ s ≠ "frozen") ∧
    (mdadmGetStatus (some "md0") fsOne = .ok
      { array_state := some "clean", sync_action := some "resync",
        progress := some (decVal 52 2 1), finish_min := some (decVal 396 1 1),
        speed_kps := some (decVal 99181 0 0) }) ∧
    (decVal 52 2 1 = 522 / 10 ∧ decVal 396 1 1 = 3961 / 10 ∧
      decVal 99181 0 0 = 99181) := by
  refine ⟨?_, rfl, by norm_num [decVal]⟩
  intro hok hfields
  cases md with
  | none =>
      simp only [mdadmGetStatus] at hok
      injection hok with hok
      cases hok
      rcases hfields with h | h | h <;> simp at h
  | some m =>
      cases hrs : readStateFile fs ("/sys/block/" ++ m ++ "/md/array_state") with
      | error e =>
          simp only [mdadmGetStatus, hrs] at hok
          exact Except.noConfusion hok
      | ok as =>
          cases hrs2 : readStateFile fs ("/sys/block/" ++ m ++ "/md/sync_action") with
          | error e =>
              simp only [mdadmGetStatus, hrs, hrs2] at hok
              exact Except.noConfusion hok
          | ok sa =>
              cases sa with
              | none =>
                  simp only [mdadmGetStatus, hrs, hrs2] at hok
                  injection hok with hok
                  cases hok
                  rcases hfields with h | h | h <;> simp at h
              | some s =>
                  by_cases hact : s ≠ "" ∧ s ≠ "idle" ∧ s ≠ "frozen"
                  · cases hmd : fs "/proc/mdstat" with
                    | ok c =>
                        simp only [mdadmGetStatus, hrs, hrs2, hmd,
                          if_pos hact] at hok
                        injection hok with hok
                        refine ⟨s, ?_, hact.1, hact.2.1, hact.2.2⟩
                        rw [← hok]
                        exact parseMdstat_sync_action m c.data _
                    | err e =>
                        simp only [mdadmGetStatus, hrs, hrs2, hmd,
                          if_pos hact] at hok
                        injection hok with hok
                        cases hok
                        exact ⟨s, rfl, hact.1, hact.2.1, hact.2.2⟩
                  · simp only [mdadmGetStatus, hrs, hrs2, if_neg hact] at hok
                    injection hok with hok
                    cases hok
                    rcases hfields with h | h | h <;> simp at h

/-- Witness for C7 at the single-array scenario: the fields are present
and the gate conclusion holds with `s = "resync"`. -/
theorem c7_witness :
    ∃ s, (ArrayStatus.mk (some "clean") (some "resync")
        (some (decVal 52 2 1)) (some (decVal 396 1 1))
        (some (decVal 99181 0 0))).sync_action = some s ∧
      s ≠ "" ∧ s ≠ "idle" ∧ s ≠ "frozen" := by
  exact (c7_status_parsing (some "md0") fsOne _).1 rfl (Or.inl (by simp))

end PiNas
